import Mathlib

/-!
# The verse-selection core of the krishna108 devotional platform

Shallow embedding of the verse selector in `src/lib/verse-selector.ts`
(and of the parts of `src/lib/supabase.ts` it awaits), together with
proofs about the spec of this component.

Modelling conventions:
* The TS string union `'Bhagavad Gita' | 'Srimad Bhagavatam'` becomes the
  two-constructor inductive `Source`.
* TS `Record<number, number>` dictionaries become `Nat → Option Nat`
  functions; `none` models a missing key, i.e. JS `undefined`, and
  `jsLtNum` reproduces the JS comparison `x < undefined = false`.
* Timestamps are integers counting days (the code manipulates dates only
  through `Date.setDate`, i.e. whole-day arithmetic); `now` is the
  instant a recency check runs and the cutoff is `now - days`.
* The `async`/`await` structure is made explicit: the results of the two
  Supabase reads (`getLastPublishedVerse`, `getAllPosts`) are passed as
  parameters, and thrown JS errors become `Except` errors.
* Verification scaffolding that is not part of the source — the index
  bijection `ofIndex`/`refIndex` enumerating the canon ring and the
  bounded boolean checker `checkSeg`/`checkUpTo` — is marked as such.
-/

/-- The scripture source union type from `src/lib/types.ts`
(`'Bhagavad Gita' | 'Srimad Bhagavatam'`). -/
inductive Source where
  | bhagavadGita
  | srimadBhagavatam
deriving DecidableEq, Repr

/-- Structure `VerseReference` from `src/lib/types.ts`; the optional
`text` field is never consulted by the selector and is omitted. -/
structure VerseReference where
  source : Source
  chapter : Nat
  verse : Nat
deriving DecidableEq, Repr

/-- Table `BHAGAVAD_GITA_STRUCTURE` from `src/lib/verse-selector.ts`:
chapter number to verse count; `none` models an absent key. -/
def BHAGAVAD_GITA_STRUCTURE : Nat → Option Nat
  | 1 => some 46
  | 2 => some 72
  | 3 => some 43
  | 4 => some 42
  | 5 => some 29
  | 6 => some 47
  | 7 => some 30
  | 8 => some 28
  | 9 => some 34
  | 10 => some 42
  | 11 => some 55
  | 12 => some 20
  | 13 => some 35
  | 14 => some 27
  | 15 => some 20
  | 16 => some 24
  | 17 => some 28
  | 18 => some 78
  | _ => none

/-- Table `SRIMAD_BHAGAVATAM_STRUCTURE` from `src/lib/verse-selector.ts`:
canto number, then chapter number, to verse count (only Canto 1 is
present in the source data). -/
def SRIMAD_BHAGAVATAM_STRUCTURE : Nat → Nat → Option Nat
  | 1, 1 => some 23
  | 1, 2 => some 34
  | 1, 3 => some 44
  | 1, 4 => some 33
  | 1, 5 => some 40
  | 1, 6 => some 38
  | 1, 7 => some 58
  | 1, 8 => some 52
  | 1, 9 => some 49
  | 1, 10 => some 70
  | 1, 11 => some 39
  | 1, 12 => some 36
  | 1, 13 => some 60
  | 1, 14 => some 43
  | 1, 15 => some 51
  | 1, 16 => some 36
  | 1, 17 => some 46
  | 1, 18 => some 50
  | 1, 19 => some 43
  | _, _ => none

/-- JS comparison `a < b` where `b` may be `undefined`: comparison with
`undefined` is NaN-valued and yields `false`. -/
def jsLtNum (a : Nat) : Option Nat → Bool
  | some b => a < b
  | none => false

/-- Function `getNextSequentialVerse` from `src/lib/verse-selector.ts`
(lines 95-153). -/
def getNextSequentialVerse (current : VerseReference) : VerseReference :=
  match current.source with
  | Source.bhagavadGita =>
    let maxVersesInChapter := BHAGAVAD_GITA_STRUCTURE current.chapter
    if jsLtNum current.verse maxVersesInChapter then
      ⟨Source.bhagavadGita, current.chapter, current.verse + 1⟩
    else if current.chapter < 18 then
      ⟨Source.bhagavadGita, current.chapter + 1, 1⟩
    else
      ⟨Source.srimadBhagavatam, 1, 1⟩
  | Source.srimadBhagavatam =>
    let maxVersesInChapter := SRIMAD_BHAGAVATAM_STRUCTURE 1 current.chapter
    if jsLtNum current.verse maxVersesInChapter then
      ⟨Source.srimadBhagavatam, current.chapter, current.verse + 1⟩
    else if current.chapter < 19 then
      ⟨Source.srimadBhagavatam, current.chapter + 1, 1⟩
    else
      ⟨Source.bhagavadGita, 1, 1⟩

/-- Number of chapters each structure table defines (the literals 18 and
19 that the source compares chapters against). -/
def chapterCount : Source → Nat
  | Source.bhagavadGita => 18
  | Source.srimadBhagavatam => 19

/-- The scripture-index lookup the sequencer performs: the verse count
the structure table holds for a chapter, `none` (JS `undefined`) when the
chapter has no entry. -/
def versesInChapter (source : Source) (chapter : Nat) : Option Nat :=
  match source with
  | Source.bhagavadGita => BHAGAVAD_GITA_STRUCTURE chapter
  | Source.srimadBhagavatam => SRIMAD_BHAGAVATAM_STRUCTURE 1 chapter

/-- The verse-count lookup with default 0 for an absent chapter. -/
def versesInChapterD (source : Source) (chapter : Nat) : Nat :=
  (versesInChapter source chapter).getD 0

/-- A canon-valid reference: source is one of the two scriptures, the
chapter lies in `[1, chapterCount]` and the verse in
`[1, versesInChapter]`. -/
def isValidRef (r : VerseReference) : Prop :=
  1 ≤ r.chapter ∧ r.chapter ≤ chapterCount r.source ∧
    1 ≤ r.verse ∧ r.verse ≤ versesInChapterD r.source r.chapter

instance (r : VerseReference) : Decidable (isValidRef r) := by
  unfold isValidRef; infer_instance

/-- Total verse count of a scripture: the sum of its chapters' verse
counts (700 for the Bhagavad Gita, 845 for the modelled Srimad
Bhagavatam Canto 1). -/
def totalVerseCount (src : Source) : Nat :=
  (List.range (chapterCount src)).foldl
    (fun acc c => acc + versesInChapterD src (c + 1)) 0

/-- Verification scaffolding (not part of the source): the i-th
reference of the canonical ring order, for `i < 1545`; the cumulative
bounds are the partial sums of the two structure tables. -/
def ofIndex (i : Nat) : VerseReference :=
  if i < 46 then ⟨Source.bhagavadGita, 1, i + 1⟩
  else if i < 118 then ⟨Source.bhagavadGita, 2, i - 46 + 1⟩
  else if i < 161 then ⟨Source.bhagavadGita, 3, i - 118 + 1⟩
  else if i < 203 then ⟨Source.bhagavadGita, 4, i - 161 + 1⟩
  else if i < 232 then ⟨Source.bhagavadGita, 5, i - 203 + 1⟩
  else if i < 279 then ⟨Source.bhagavadGita, 6, i - 232 + 1⟩
  else if i < 309 then ⟨Source.bhagavadGita, 7, i - 279 + 1⟩
  else if i < 337 then ⟨Source.bhagavadGita, 8, i - 309 + 1⟩
  else if i < 371 then ⟨Source.bhagavadGita, 9, i - 337 + 1⟩
  else if i < 413 then ⟨Source.bhagavadGita, 10, i - 371 + 1⟩
  else if i < 468 then ⟨Source.bhagavadGita, 11, i - 413 + 1⟩
  else if i < 488 then ⟨Source.bhagavadGita, 12, i - 468 + 1⟩
  else if i < 523 then ⟨Source.bhagavadGita, 13, i - 488 + 1⟩
  else if i < 550 then ⟨Source.bhagavadGita, 14, i - 523 + 1⟩
  else if i < 570 then ⟨Source.bhagavadGita, 15, i - 550 + 1⟩
  else if i < 594 then ⟨Source.bhagavadGita, 16, i - 570 + 1⟩
  else if i < 622 then ⟨Source.bhagavadGita, 17, i - 594 + 1⟩
  else if i < 700 then ⟨Source.bhagavadGita, 18, i - 622 + 1⟩
  else if i < 723 then ⟨Source.srimadBhagavatam, 1, i - 700 + 1⟩
  else if i < 757 then ⟨Source.srimadBhagavatam, 2, i - 723 + 1⟩
  else if i < 801 then ⟨Source.srimadBhagavatam, 3, i - 757 + 1⟩
  else if i < 834 then ⟨Source.srimadBhagavatam, 4, i - 801 + 1⟩
  else if i < 874 then ⟨Source.srimadBhagavatam, 5, i - 834 + 1⟩
  else if i < 912 then ⟨Source.srimadBhagavatam, 6, i - 874 + 1⟩
  else if i < 970 then ⟨Source.srimadBhagavatam, 7, i - 912 + 1⟩
  else if i < 1022 then ⟨Source.srimadBhagavatam, 8, i - 970 + 1⟩
  else if i < 1071 then ⟨Source.srimadBhagavatam, 9, i - 1022 + 1⟩
  else if i < 1141 then ⟨Source.srimadBhagavatam, 10, i - 1071 + 1⟩
  else if i < 1180 then ⟨Source.srimadBhagavatam, 11, i - 1141 + 1⟩
  else if i < 1216 then ⟨Source.srimadBhagavatam, 12, i - 1180 + 1⟩
  else if i < 1276 then ⟨Source.srimadBhagavatam, 13, i - 1216 + 1⟩
  else if i < 1319 then ⟨Source.srimadBhagavatam, 14, i - 1276 + 1⟩
  else if i < 1370 then ⟨Source.srimadBhagavatam, 15, i - 1319 + 1⟩
  else if i < 1406 then ⟨Source.srimadBhagavatam, 16, i - 1370 + 1⟩
  else if i < 1452 then ⟨Source.srimadBhagavatam, 17, i - 1406 + 1⟩
  else if i < 1502 then ⟨Source.srimadBhagavatam, 18, i - 1452 + 1⟩
  else if i < 1545 then ⟨Source.srimadBhagavatam, 19, i - 1502 + 1⟩
  else ⟨Source.bhagavadGita, 1, 1⟩

/-- Verification scaffolding: ring index of verse 1 of each Bhagavad
Gita chapter (partial sums of `BHAGAVAD_GITA_STRUCTURE`). -/
def bgIndexBase : Nat → Nat
  | 1 => 0
  | 2 => 46
  | 3 => 118
  | 4 => 161
  | 5 => 203
  | 6 => 232
  | 7 => 279
  | 8 => 309
  | 9 => 337
  | 10 => 371
  | 11 => 413
  | 12 => 468
  | 13 => 488
  | 14 => 523
  | 15 => 550
  | 16 => 570
  | 17 => 594
  | 18 => 622
  | _ => 0

/-- Verification scaffolding: offset of verse 1 of each Srimad
Bhagavatam chapter within the Srimad Bhagavatam block (partial sums of
`SRIMAD_BHAGAVATAM_STRUCTURE 1`). -/
def sbIndexBase : Nat → Nat
  | 1 => 0
  | 2 => 23
  | 3 => 57
  | 4 => 101
  | 5 => 134
  | 6 => 174
  | 7 => 212
  | 8 => 270
  | 9 => 322
  | 10 => 371
  | 11 => 441
  | 12 => 480
  | 13 => 516
  | 14 => 576
  | 15 => 619
  | 16 => 670
  | 17 => 706
  | 18 => 752
  | 19 => 802
  | _ => 0

/-- Verification scaffolding: position of a reference in the canonical
ring order, inverse of `ofIndex` on valid references. -/
def refIndex (r : VerseReference) : Nat :=
  match r.source with
  | Source.bhagavadGita => bgIndexBase r.chapter + r.verse - 1
  | Source.srimadBhagavatam => 700 + sbIndexBase r.chapter + r.verse - 1

/-- Verification scaffolding: balanced divide-and-conquer check that a
boolean predicate holds on `[lo, lo + len)`; the explicit fuel keeps the
recursion structural and the evaluation depth logarithmic, so the kernel
can run it on ranges of a few thousand elements. -/
def checkSeg (p : Nat → Bool) : Nat → Nat → Nat → Bool
  | 0, lo, len => decide (len = 0) || (decide (len = 1) && p lo)
  | f + 1, lo, len =>
    if len ≤ 1 then decide (len = 0) || p lo
    else
      let h := len / 2
      checkSeg p f lo h && checkSeg p f (lo + h) (len - h)

theorem checkSeg_spec (p : Nat → Bool) :
    ∀ f lo len, checkSeg p f lo len = true →
      ∀ i, lo ≤ i → i < lo + len → p i = true := by
  intro f
  induction f with
  | zero =>
    intro lo len h i hlo hhi
    rw [checkSeg] at h
    rcases Bool.or_eq_true _ _ |>.mp h with h' | h'
    · simp only [decide_eq_true_eq] at h'; omega
    · rw [Bool.and_eq_true, decide_eq_true_eq] at h'
      have : i = lo := by omega
      subst this; exact h'.2
  | succ f ih =>
    intro lo len h i hlo hhi
    rw [checkSeg] at h
    by_cases hlen : len ≤ 1
    · rw [if_pos hlen] at h
      rcases Bool.or_eq_true _ _ |>.mp h with h' | h'
      · simp only [decide_eq_true_eq] at h'; omega
      · have : i = lo := by omega
        subst this; exact h'
    · rw [if_neg hlen, Bool.and_eq_true] at h
      by_cases hi : i < lo + len / 2
      · exact ih lo (len / 2) h.1 i hlo hi
      · exact ih (lo + len / 2) (len - len / 2) h.2 i (by omega) (by omega)

/-- Verification scaffolding: `p` holds on `[0, n)`, for `n ≤ 2048`. -/
def checkUpTo (p : Nat → Bool) (n : Nat) : Bool :=
  checkSeg p 11 0 n

theorem checkUpTo_spec (p : Nat → Bool) (n : Nat)
    (h : checkUpTo p n = true) : ∀ i, i < n → p i = true := by
  intro i hi
  exact checkSeg_spec p 11 0 n h i (Nat.zero_le i) (by omega)

/-- One step of the ring: the successor of the i-th reference is the
(i+1 mod 1545)-th. -/
def succStepB (i : Nat) : Bool :=
  decide (getNextSequentialVerse (ofIndex i) = ofIndex ((i + 1) % 1545))

/-- The i-th reference has index i and is canon-valid. -/
def indexStepB (i : Nat) : Bool :=
  decide (refIndex (ofIndex i) = i) && decide (isValidRef (ofIndex i))

theorem succStep_check : checkUpTo succStepB 1545 = true := by decide

theorem indexStep_check : checkUpTo indexStepB 1545 = true := by decide

theorem ofIndex_succStep (i : Nat) (hi : i < 1545) :
    getNextSequentialVerse (ofIndex i) = ofIndex ((i + 1) % 1545) := by
  have h := checkUpTo_spec succStepB 1545 succStep_check i hi
  rw [succStepB, decide_eq_true_eq] at h
  exact h

theorem refIndex_ofIndex (i : Nat) (hi : i < 1545) :
    refIndex (ofIndex i) = i := by
  have h := checkUpTo_spec indexStepB 1545 indexStep_check i hi
  rw [indexStepB, Bool.and_eq_true, decide_eq_true_eq] at h
  exact h.1

theorem ofIndex_valid (i : Nat) (hi : i < 1545) : isValidRef (ofIndex i) := by
  have h := checkUpTo_spec indexStepB 1545 indexStep_check i hi
  rw [indexStepB, Bool.and_eq_true] at h
  exact of_decide_eq_true h.2

theorem bg_structure_none (ch : Nat) (h : 18 < ch) :
    BHAGAVAD_GITA_STRUCTURE ch = none := by
  match ch, h with
  | n + 19, _ => rfl

theorem sb_structure_none (ch : Nat) (h : 19 < ch) :
    SRIMAD_BHAGAVATAM_STRUCTURE 1 ch = none := by
  match ch, h with
  | n + 20, _ => rfl

theorem versesInChapterD_le (src : Source) (ch : Nat) :
    versesInChapterD src ch ≤ 78 := by
  cases src with
  | bhagavadGita =>
    rcases Nat.lt_or_ge ch 19 with h | h
    · interval_cases ch <;> decide
    · unfold versesInChapterD versesInChapter
      rw [bg_structure_none ch (by omega)]
      simp
  | srimadBhagavatam =>
    rcases Nat.lt_or_ge ch 20 with h | h
    · interval_cases ch <;> decide
    · unfold versesInChapterD versesInChapter
      rw [sb_structure_none ch (by omega)]
      simp

/-- Decoding used to quantify over the two sources in a bounded
check. -/
def sourceOfNat (s : Nat) : Source :=
  if s = 0 then Source.bhagavadGita else Source.srimadBhagavatam

/-- Bounded check that on every valid reference (chapter < 20,
verse < 79 suffices) `ofIndex` inverts `refIndex`. -/
def inverseCheckB : Bool :=
  checkUpTo (fun s =>
    checkUpTo (fun ch =>
      checkUpTo (fun v =>
        let r : VerseReference := ⟨sourceOfNat s, ch, v⟩
        !(decide (isValidRef r)) ||
          (decide (refIndex r < 1545) && decide (ofIndex (refIndex r) = r))) 79) 20) 2

theorem inverseCheck : inverseCheckB = true := by decide

theorem ofIndex_refIndex (r : VerseReference) (hr : isValidRef r) :
    refIndex r < 1545 ∧ ofIndex (refIndex r) = r := by
  obtain ⟨h1, h2, h3, h4⟩ := hr
  have hch : r.chapter < 20 := by
    have : chapterCount r.source ≤ 19 := by cases r.source <;> decide
    omega
  have hv : r.verse < 79 := by
    have := versesInChapterD_le r.source r.chapter
    omega
  have hs : (match r.source with
      | Source.bhagavadGita => 0
      | Source.srimadBhagavatam => 1) < 2 := by
    cases r.source <;> decide
  have H1 := checkUpTo_spec _ 2 inverseCheck _ hs
  have H2 := checkUpTo_spec _ 20 H1 r.chapter hch
  have H3 := checkUpTo_spec _ 79 H2 r.verse hv
  have hsrc : sourceOfNat (match r.source with
      | Source.bhagavadGita => 0
      | Source.srimadBhagavatam => 1) = r.source := by
    cases r.source <;> rfl
  have hval : decide (isValidRef r) = true :=
    decide_eq_true ⟨h1, h2, h3, h4⟩
  simp only [hsrc, hval, Bool.not_true, Bool.false_or, Bool.and_eq_true,
    decide_eq_true_eq] at H3
  exact H3

theorem iterate_ofIndex (n : Nat) : ∀ i, i < 1545 →
    getNextSequentialVerse^[n] (ofIndex i) = ofIndex ((i + n) % 1545) := by
  induction n with
  | zero => intro i hi; simp [Nat.mod_eq_of_lt hi]
  | succ n ih =>
    intro i hi
    rw [Function.iterate_succ_apply, ofIndex_succStep i hi,
      ih ((i + 1) % 1545) (Nat.mod_lt _ (by omega))]
    rw [Nat.mod_add_mod]
    congr 1
    omega

/-- C2: the successor map is a single 1545-cycle over the whole modelled
canon (700 Bhagavad Gita verses plus 845 Srimad Bhagavatam Canto-1
verses): iterating `getNextSequentialVerse` exactly 1545 times from any
valid reference returns to it, and no reference repeats earlier. -/
theorem ring_single_cycle :
    totalVerseCount Source.bhagavadGita + totalVerseCount Source.srimadBhagavatam = 1545 ∧
    ∀ r : VerseReference, isValidRef r →
      getNextSequentialVerse^[1545] r = r ∧
      ∀ i j : Nat, i < j → j < 1545 →
        getNextSequentialVerse^[i] r ≠ getNextSequentialVerse^[j] r := by
  constructor
  · decide
  · intro r hr
    obtain ⟨hlt, heq⟩ := ofIndex_refIndex r hr
    constructor
    · conv_lhs => rw [← heq]
      rw [iterate_ofIndex 1545 _ hlt]
      have hmod : (refIndex r + 1545) % 1545 = refIndex r := by omega
      rw [hmod, heq]
    · intro i j hij hj hEq
      conv_lhs at hEq => rw [← heq]
      conv_rhs at hEq => rw [← heq]
      rw [iterate_ofIndex i _ hlt, iterate_ofIndex j _ hlt] at hEq
      have h1 := refIndex_ofIndex ((refIndex r + i) % 1545) (Nat.mod_lt _ (by omega))
      have h2 := refIndex_ofIndex ((refIndex r + j) % 1545) (Nat.mod_lt _ (by omega))
      have hkey : (refIndex r + i) % 1545 = (refIndex r + j) % 1545 := by
        rw [← h1, ← h2, hEq]
      omega

theorem ring_single_cycle_witness :
    isValidRef ⟨Source.bhagavadGita, 1, 1⟩ ∧
    getNextSequentialVerse^[1545] ⟨Source.bhagavadGita, 1, 1⟩ =
      (⟨Source.bhagavadGita, 1, 1⟩ : VerseReference) ∧
    getNextSequentialVerse^[0] (⟨Source.bhagavadGita, 1, 1⟩ : VerseReference) ≠
      getNextSequentialVerse^[1] (⟨Source.bhagavadGita, 1, 1⟩ : VerseReference) := by
  have h := ring_single_cycle.2 ⟨Source.bhagavadGita, 1, 1⟩ (by decide)
  exact ⟨by decide, h.1, h.2 0 1 (by decide) (by decide)⟩

theorem isValidRef_next (r : VerseReference) (hr : isValidRef r) :
    isValidRef (getNextSequentialVerse r) := by
  obtain ⟨hlt, heq⟩ := ofIndex_refIndex r hr
  rw [← heq, ofIndex_succStep _ hlt]
  exact ofIndex_valid _ (Nat.mod_lt _ (by omega))

theorem isValidRef_iterate (n : Nat) :
    ∀ r : VerseReference, isValidRef r →
      isValidRef (getNextSequentialVerse^[n] r) := by
  induction n with
  | zero => intro r hr; exact hr
  | succ n ih =>
    intro r hr
    rw [Function.iterate_succ_apply]
    exact ih _ (isValidRef_next r hr)

/-- The fields of a `Post` (from `src/lib/types.ts`) that
`hasVerseBeenPublishedRecently` reads; `createdAt` is a day-count
timestamp. -/
structure Post where
  scriptureSource : Source
  verseReference : String
  createdAt : Int
deriving DecidableEq, Repr

deriving instance DecidableEq for Except

/-- The pure part of `hasVerseBeenPublishedRecently` from
`src/lib/verse-selector.ts` (lines 172-189), with the awaited
`getAllPosts()` result and the wall clock passed in explicitly.  Note the
match on the stored reference text is plain string equality with the
candidate's `chapter.verse` string. -/
def hasVerseBeenPublishedRecently (allPosts : List Post) (now : Int)
    (verse : VerseReference) (days : Int) : Bool :=
  let cutoffDate := now - days
  let verseString := toString verse.chapter ++ "." ++ toString verse.verse
  allPosts.any fun post =>
    decide (post.verseReference = verseString) &&
    decide (post.scriptureSource = verse.source) &&
    decide (cutoffDate ≤ post.createdAt)

/-- Message of the error thrown when the selection loop reaches
`maxAttempts` in `getNextVerse`. -/
def exhaustedCanonMessage : String :=
  "Unable to find a verse that has not been published in the last 365 days. This should not happen with proper scripture coverage."

/-- The `while` loop of `getNextVerse` (`src/lib/verse-selector.ts`,
lines 214-229).  The source counts `attempts` upward from 0 and, after
rejecting a candidate, throws when `attempts + 1 >= maxAttempts` (with
`maxAttempts = 1000`); here the equivalent countdown
`attemptsLeft = 1000 - attempts` is the recursion variable (so that the
recursion is structural and computable), and the guard fires when
`attemptsLeft` would drop below 1.  The first component is the loop's
outcome; the second counts how many times the loop condition — and hence
the `await getAllPosts()` inside `hasVerseBeenPublishedRecently` — was
evaluated. -/
def selectLoop (allPosts : List Post) (now : Int) :
    Nat → VerseReference → Except String VerseReference × Nat
  | attemptsLeft, nextVerse =>
    if hasVerseBeenPublishedRecently allPosts now nextVerse 365 then
      let nextVerse' := getNextSequentialVerse nextVerse
      match attemptsLeft with
      | n + 2 =>
        let rest := selectLoop allPosts now (n + 1) nextVerse'
        (rest.1, rest.2 + 1)
      | _ =>
        (Except.error exhaustedCanonMessage, 1)
    else
      (Except.ok nextVerse, 1)

/-- Function `getNextVerse` from `src/lib/verse-selector.ts` (lines
200-232), with the awaited collaborator reads resolved: `lastVerse` is
the `getLastPublishedVerse()` result, `allPosts` the (fixed per run)
`getAllPosts()` result seen by every iteration of the recency loop.  The
loop starts at `attempts = 0`, i.e. `attemptsLeft = 1000`. -/
def getNextVerse (lastVerse : Option VerseReference) (allPosts : List Post)
    (now : Int) : Except String VerseReference :=
  match lastVerse with
  | none => Except.ok ⟨Source.bhagavadGita, 1, 1⟩
  | some lv => (selectLoop allPosts now 1000 (getNextSequentialVerse lv)).1

/-- Number of `getAllPosts()` reads a `getNextVerse` invocation
performs: one per evaluation of the recency-loop condition. -/
def getAllPostsReadCount (lastVerse : Option VerseReference)
    (allPosts : List Post) (now : Int) : Nat :=
  match lastVerse with
  | none => 0
  | some lv => (selectLoop allPosts now 1000 (getNextSequentialVerse lv)).2

/-- Total reads from the history collaborator in one `getNextVerse`
invocation: the single `getLastPublishedVerse()` read plus one
`getAllPosts()` read per recency check. -/
def historyReadCount (lastVerse : Option VerseReference)
    (allPosts : List Post) (now : Int) : Nat :=
  1 + getAllPostsReadCount lastVerse allPosts now

theorem selectLoop_eq_low (allPosts : List Post) (now : Int)
    (v : VerseReference) (f : Nat) (hf : f = 0 ∨ f = 1) :
    selectLoop allPosts now f v =
      if hasVerseBeenPublishedRecently allPosts now v 365 then
        (Except.error exhaustedCanonMessage, 1)
      else
        (Except.ok v, 1) := by
  rcases hf with h | h <;> subst h <;> rfl

theorem selectLoop_eq_high (allPosts : List Post) (now : Int)
    (v : VerseReference) (n : Nat) :
    selectLoop allPosts now (n + 2) v =
      if hasVerseBeenPublishedRecently allPosts now v 365 then
        let rest := selectLoop allPosts now (n + 1) (getNextSequentialVerse v)
        (rest.1, rest.2 + 1)
      else
        (Except.ok v, 1) := rfl

theorem selectLoop_spec (allPosts : List Post) (now : Int) :
    ∀ (fuel : Nat) (v : VerseReference), 1 ≤ fuel →
      (∃ k, k < fuel ∧
        (∀ j, j < k →
          hasVerseBeenPublishedRecently allPosts now
            (getNextSequentialVerse^[j] v) 365 = true) ∧
        hasVerseBeenPublishedRecently allPosts now
          (getNextSequentialVerse^[k] v) 365 = false ∧
        selectLoop allPosts now fuel v =
          (Except.ok (getNextSequentialVerse^[k] v), k + 1)) ∨
      ((∀ j, j < fuel →
          hasVerseBeenPublishedRecently allPosts now
            (getNextSequentialVerse^[j] v) 365 = true) ∧
        selectLoop allPosts now fuel v =
          (Except.error exhaustedCanonMessage, fuel)) := by
  intro fuel
  induction fuel with
  | zero => intro v h; omega
  | succ n ih =>
    intro v _
    by_cases hrec : hasVerseBeenPublishedRecently allPosts now v 365
    · match n with
      | 0 =>
        -- attemptsLeft = 1: the guard throws
        right
        constructor
        · intro j hj
          have : j = 0 := by omega
          subst this
          exact hrec
        · rw [selectLoop_eq_low allPosts now v 1 (Or.inr rfl), if_pos hrec]
      | m + 1 =>
        -- attemptsLeft = m + 2: reject v and continue with its successor
        rcases ih (getNextSequentialVerse v) (by omega) with
          ⟨k, hk, hrej, hacc, hloop⟩ | ⟨hrej, hloop⟩
        · left
          refine ⟨k + 1, by omega, ?_, ?_, ?_⟩
          · intro j hj
            match j with
            | 0 => exact hrec
            | j + 1 =>
              rw [Function.iterate_succ_apply]
              exact hrej j (by omega)
          · rw [Function.iterate_succ_apply]
            exact hacc
          · rw [Function.iterate_succ_apply, selectLoop_eq_high, if_pos hrec,
              hloop]
        · right
          constructor
          · intro j hj
            match j with
            | 0 => exact hrec
            | j + 1 =>
              rw [Function.iterate_succ_apply]
              exact hrej j (by omega)
          · rw [selectLoop_eq_high, if_pos hrec, hloop]
    · left
      refine ⟨0, by omega, by omega, ?_, ?_⟩
      · simpa using hrec
      · match n with
        | 0 =>
          rw [selectLoop_eq_low allPosts now v 1 (Or.inr rfl), if_neg hrec]
          rfl
        | m + 1 =>
          rw [selectLoop_eq_high, if_neg hrec]
          rfl

theorem getNextVerse_ok_spec (allPosts : List Post) (now : Int)
    (last v : VerseReference)
    (h : getNextVerse (some last) allPosts now = Except.ok v) :
    ∃ k, v = getNextSequentialVerse^[k + 1] last ∧
      hasVerseBeenPublishedRecently allPosts now v 365 = false ∧
      (∀ j, 1 ≤ j → j ≤ k →
        hasVerseBeenPublishedRecently allPosts now
          (getNextSequentialVerse^[j] last) 365 = true) ∧
      getAllPostsReadCount (some last) allPosts now = k + 1 := by
  rcases selectLoop_spec allPosts now 1000 (getNextSequentialVerse last)
      (by omega) with ⟨k, hk, hrej, hacc, hloop⟩ | ⟨hrej, hloop⟩
  · refine ⟨k, ?_, ?_, ?_, ?_⟩
    · rw [getNextVerse, hloop] at h
      have hv : v = getNextSequentialVerse^[k] (getNextSequentialVerse last) := by
        injection h with h'
        exact h'.symm
      rw [hv, Function.iterate_succ_apply]
    · rw [getNextVerse, hloop] at h
      injection h with h'
      rw [h'] at hacc
      exact hacc
    · intro j hj1 hjk
      match j, hj1 with
      | j + 1, _ =>
        rw [Function.iterate_succ_apply]
        exact hrej j (by omega)
    · rw [getAllPostsReadCount, hloop]
  · rw [getNextVerse, hloop] at h
    cases h

theorem getNextVerse_error_spec (allPosts : List Post) (now : Int)
    (last : VerseReference) :
    getNextVerse (some last) allPosts now =
      Except.error exhaustedCanonMessage ↔
    ∀ j, 1 ≤ j → j ≤ 1000 →
      hasVerseBeenPublishedRecently allPosts now
        (getNextSequentialVerse^[j] last) 365 = true := by
  rcases selectLoop_spec allPosts now 1000 (getNextSequentialVerse last)
      (by omega) with ⟨k, hk, _, hacc, hloop⟩ | ⟨hrej, hloop⟩
  · constructor
    · intro h
      rw [getNextVerse, hloop] at h
      cases h
    · intro hall
      have := hall (k + 1) (by omega) (by omega)
      rw [Function.iterate_succ_apply] at this
      rw [this] at hacc
      cases hacc
  · constructor
    · intro _ j hj1 hj1000
      match j, hj1 with
      | j + 1, _ =>
        rw [Function.iterate_succ_apply]
        exact hrej j (by omega)
    · intro _
      rw [getNextVerse, hloop]

theorem getNextVerse_error_count (allPosts : List Post) (now : Int)
    (last : VerseReference)
    (h : getNextVerse (some last) allPosts now =
      Except.error exhaustedCanonMessage) :
    getAllPostsReadCount (some last) allPosts now = 1000 := by
  rcases selectLoop_spec allPosts now 1000 (getNextSequentialVerse last)
      (by omega) with ⟨k, hk, _, hacc, hloop⟩ | ⟨hrej, hloop⟩
  · rw [getNextVerse, hloop] at h
    cases h
  · rw [getAllPostsReadCount, hloop]

/-- C1: for a present `lastPublished` the selector returns the earliest
ring-successor not recently published (all strictly earlier successors
are rejected as recent, the returned one is not), and with no
publication history it returns Bhagavad Gita 1.1 while performing zero
recency checks. -/
theorem getNextVerse_earliest_eligible (allPosts : List Post) (now : Int) :
    (getNextVerse none allPosts now =
        Except.ok ⟨Source.bhagavadGita, 1, 1⟩ ∧
      getAllPostsReadCount none allPosts now = 0) ∧
    ∀ last v, getNextVerse (some last) allPosts now = Except.ok v →
      ∃ k, v = getNextSequentialVerse^[k + 1] last ∧
        hasVerseBeenPublishedRecently allPosts now v 365 = false ∧
        ∀ j, 1 ≤ j → j ≤ k →
          hasVerseBeenPublishedRecently allPosts now
            (getNextSequentialVerse^[j] last) 365 = true := by
  refine ⟨⟨rfl, rfl⟩, ?_⟩
  intro last v h
  obtain ⟨k, h1, h2, h3, _⟩ := getNextVerse_ok_spec allPosts now last v h
  exact ⟨k, h1, h2, h3⟩

theorem getNextVerse_earliest_eligible_witness :
    (getNextVerse none [] 0 = Except.ok ⟨Source.bhagavadGita, 1, 1⟩ ∧
      getAllPostsReadCount none [] 0 = 0) ∧
    ∃ k, (⟨Source.bhagavadGita, 1, 2⟩ : VerseReference) =
        getNextSequentialVerse^[k + 1] ⟨Source.bhagavadGita, 1, 1⟩ ∧
      hasVerseBeenPublishedRecently [] 0 ⟨Source.bhagavadGita, 1, 2⟩ 365 = false ∧
      ∀ j, 1 ≤ j → j ≤ k →
        hasVerseBeenPublishedRecently [] 0
          (getNextSequentialVerse^[j] ⟨Source.bhagavadGita, 1, 1⟩) 365 = true :=
  ⟨(getNextVerse_earliest_eligible [] 0).1,
    (getNextVerse_earliest_eligible [] 0).2 ⟨Source.bhagavadGita, 1, 1⟩
      ⟨Source.bhagavadGita, 1, 2⟩ (by rfl)⟩

/-- C9: whenever `getNextVerse` returns a reference (given a last-published
reference that is absent or canon-valid), the returned reference is a
valid canon reference. -/
theorem getNextVerse_returns_valid (lastVerse : Option VerseReference)
    (allPosts : List Post) (now : Int) (v : VerseReference)
    (hlast : ∀ lv, lastVerse = some lv → isValidRef lv)
    (h : getNextVerse lastVerse allPosts now = Except.ok v) :
    isValidRef v := by
  match lastVerse with
  | none =>
    rw [getNextVerse] at h
    injection h with h'
    rw [← h']
    decide
  | some lv =>
    obtain ⟨k, h1, _, _, _⟩ := getNextVerse_ok_spec allPosts now lv v h
    rw [h1]
    exact isValidRef_iterate (k + 1) lv (hlast lv rfl)

theorem getNextVerse_returns_valid_witness :
    isValidRef ⟨Source.bhagavadGita, 1, 1⟩ :=
  getNextVerse_returns_valid none [] 0 ⟨Source.bhagavadGita, 1, 1⟩
    (fun _ h => by cases h) (by rfl)

/-- C10: `getNextSequentialVerse` is total on out-of-range chapters: any
chapter beyond the source's last chapter (18 for Bhagavad Gita, 19 for
Srimad Bhagavatam), with any verse, wraps silently to chapter 1 verse 1
of the other scripture. -/
theorem out_of_range_chapter_wraps (ch v : Nat) :
    (18 < ch → getNextSequentialVerse ⟨Source.bhagavadGita, ch, v⟩ =
      ⟨Source.srimadBhagavatam, 1, 1⟩) ∧
    (19 < ch → getNextSequentialVerse ⟨Source.srimadBhagavatam, ch, v⟩ =
      ⟨Source.bhagavadGita, 1, 1⟩) := by
  constructor
  · intro h
    simp only [getNextSequentialVerse]
    rw [bg_structure_none ch (by omega)]
    simp only [jsLtNum, Bool.false_eq_true, if_false]
    rw [if_neg (by omega)]
  · intro h
    simp only [getNextSequentialVerse]
    rw [sb_structure_none ch (by omega)]
    simp only [jsLtNum, Bool.false_eq_true, if_false]
    rw [if_neg (by omega)]

theorem out_of_range_chapter_wraps_witness :
    getNextSequentialVerse ⟨Source.bhagavadGita, 19, 5⟩ =
      ⟨Source.srimadBhagavatam, 1, 1⟩ ∧
    getNextSequentialVerse ⟨Source.srimadBhagavatam, 20, 7⟩ =
      ⟨Source.bhagavadGita, 1, 1⟩ :=
  ⟨(out_of_range_chapter_wraps 19 5).1 (by decide),
    (out_of_range_chapter_wraps 20 7).2 (by decide)⟩

/-- C7 (amended): the selector fails with the exhausted-canon error iff
the attempt counter reaches the safety bound, i.e. iff the first 1000
successive candidates are all rejected as recently published. -/
theorem exhaustion_iff_first_1000_blocked (allPosts : List Post) (now : Int)
    (last : VerseReference) :
    getNextVerse (some last) allPosts now =
      Except.error exhaustedCanonMessage ↔
    ∀ j, 1 ≤ j → j ≤ 1000 →
      hasVerseBeenPublishedRecently allPosts now
        (getNextSequentialVerse^[j] last) 365 = true :=
  getNextVerse_error_spec allPosts now last

theorem exhaustion_iff_first_1000_blocked_witness :
    getNextVerse (some ⟨Source.bhagavadGita, 1, 1⟩) [] 0 ≠
      Except.error exhaustedCanonMessage := by
  intro h
  have h1 := (exhaustion_iff_first_1000_blocked [] 0
    ⟨Source.bhagavadGita, 1, 1⟩).mp h 1 (by decide) (by decide)
  exact absurd h1 (by decide)

def mkRecentPost (r : VerseReference) (now : Int) : Post :=
  ⟨r.source, toString r.chapter ++ "." ++ toString r.verse, now⟩

/-- A history in which the first 1000 ring-successors of Bhagavad Gita 1.1
(and only those) were all published at instant 0. -/
def blockedPosts : List Post :=
  (List.range 1000).map (fun j => mkRecentPost (ofIndex (j + 1)) 0)

theorem iterate_from_start (j : Nat) (hj : j < 1545) :
    getNextSequentialVerse^[j] ⟨Source.bhagavadGita, 1, 1⟩ = ofIndex j := by
  have h := iterate_ofIndex j 0 (by omega)
  rw [show (ofIndex 0) = ⟨Source.bhagavadGita, 1, 1⟩ from rfl] at h
  rw [h]
  congr 1
  omega

theorem blocked_recent (j : Nat) (h1 : 1 ≤ j) (h2 : j ≤ 1000) :
    hasVerseBeenPublishedRecently blockedPosts 0
      (getNextSequentialVerse^[j] ⟨Source.bhagavadGita, 1, 1⟩) 365 = true := by
  rw [iterate_from_start j (by omega)]
  unfold hasVerseBeenPublishedRecently
  rw [List.any_eq_true]
  refine ⟨mkRecentPost (ofIndex j) 0, ?_, ?_⟩
  · exact List.mem_map.mpr ⟨j - 1, List.mem_range.mpr (by omega),
      by rw [show j - 1 + 1 = j from by omega]⟩
  · simp [mkRecentPost]

set_option maxRecDepth 4000 in
theorem exhaustion_at_exactly_1000_blocked :
    hasVerseBeenPublishedRecently blockedPosts 0
      (getNextSequentialVerse^[1001] ⟨Source.bhagavadGita, 1, 1⟩) 365 = false ∧
    getNextVerse (some ⟨Source.bhagavadGita, 1, 1⟩) blockedPosts 0 =
      Except.error exhaustedCanonMessage := by
  constructor
  · rw [iterate_from_start 1001 (by omega)]
    decide
  · rcases selectLoop_spec blockedPosts 0 1000
        (getNextSequentialVerse ⟨Source.bhagavadGita, 1, 1⟩) (by omega) with
      ⟨k, hk, _, hacc, _⟩ | ⟨_, hloop⟩
    · rw [← Function.iterate_succ_apply] at hacc
      rw [blocked_recent (k + 1) (by omega) (by omega)] at hacc
      cases hacc
    · rw [getNextVerse, hloop]

/-- C4 (amended): one invocation performs one last-published read plus one
full-history load per recency check — the history is re-loaded on every
loop iteration, so an invocation that rejects `k` candidates before
accepting performs `2 + k` collaborator reads, an exhausted invocation
performs `1001`, and only the no-history bootstrap performs exactly one. -/
theorem history_read_count_spec (allPosts : List Post) (now : Int) :
    historyReadCount none allPosts now = 1 ∧
    (∀ last v, getNextVerse (some last) allPosts now = Except.ok v →
      ∃ k, v = getNextSequentialVerse^[k + 1] last ∧
        historyReadCount (some last) allPosts now = 2 + k) ∧
    (∀ last, getNextVerse (some last) allPosts now =
        Except.error exhaustedCanonMessage →
      historyReadCount (some last) allPosts now = 1001) := by
  refine ⟨rfl, ?_, ?_⟩
  · intro last v h
    obtain ⟨k, h1, _, _, h4⟩ := getNextVerse_ok_spec allPosts now last v h
    refine ⟨k, h1, ?_⟩
    rw [historyReadCount, h4]
    omega
  · intro last h
    rw [historyReadCount, getNextVerse_error_count allPosts now last h]

theorem history_read_count_spec_witness :
    historyReadCount none [] 0 = 1 ∧
    ∃ k, (⟨Source.bhagavadGita, 1, 2⟩ : VerseReference) =
        getNextSequentialVerse^[k + 1] ⟨Source.bhagavadGita, 1, 1⟩ ∧
      historyReadCount (some ⟨Source.bhagavadGita, 1, 1⟩) [] 0 = 2 + k :=
  ⟨(history_read_count_spec [] 0).1,
    (history_read_count_spec [] 0).2.1 ⟨Source.bhagavadGita, 1, 1⟩
      ⟨Source.bhagavadGita, 1, 2⟩ (by rfl)⟩

/-- The history used to refute the two-reads bound: one post blocking the
first candidate after Bhagavad Gita 1.1. -/
def singleBlockPosts : List Post :=
  [⟨Source.bhagavadGita, "1.2", 0⟩]

theorem three_reads_cex :
    getNextVerse (some ⟨Source.bhagavadGita, 1, 1⟩) singleBlockPosts 0 =
      Except.ok ⟨Source.bhagavadGita, 1, 3⟩ ∧
    historyReadCount (some ⟨Source.bhagavadGita, 1, 1⟩) singleBlockPosts 0 = 3 := by
  constructor
  · decide
  · decide

/-- C5 (amended): the scripture-index lookup returns no entry (`none`,
i.e. JS `undefined`) for chapters outside `[1, chapterCount source]` and
a positive verse count inside that range; no error is raised anywhere. -/
theorem versesInChapter_range (src : Source) (ch : Nat) :
    (versesInChapter src ch = none ↔
      ch < 1 ∨ chapterCount src < ch) ∧
    ∀ m, versesInChapter src ch = some m → 0 < m := by
  cases src with
  | bhagavadGita =>
    rcases Nat.lt_or_ge ch 19 with h | h
    · constructor
      · interval_cases ch <;> decide
      · intro m hm
        match ch, h with
        | 0, _ =>
          exact Option.noConfusion (show (none : Option Nat) = some m from hm)
        | c + 1, h =>
          have hD : versesInChapterD Source.bhagavadGita (c + 1) = m := by
            rw [versesInChapterD, hm]
            rfl
          rw [← hD]
          have hc : c < 18 := by omega
          interval_cases c <;> decide
    · constructor
      · simp only [versesInChapter, bg_structure_none ch (by omega),
          chapterCount]
        constructor
        · intro _; omega
        · intro _; trivial
      · intro m hm
        rw [versesInChapter, bg_structure_none ch (by omega)] at hm
        cases hm
  | srimadBhagavatam =>
    rcases Nat.lt_or_ge ch 20 with h | h
    · constructor
      · interval_cases ch <;> decide
      · intro m hm
        match ch, h with
        | 0, _ =>
          exact Option.noConfusion (show (none : Option Nat) = some m from hm)
        | c + 1, h =>
          have hD : versesInChapterD Source.srimadBhagavatam (c + 1) = m := by
            rw [versesInChapterD, hm]
            rfl
          rw [← hD]
          have hc : c < 19 := by omega
          interval_cases c <;> decide
    · constructor
      · simp only [versesInChapter, sb_structure_none ch (by omega),
          chapterCount]
        constructor
        · intro _; omega
        · intro _; trivial
      · intro m hm
        rw [versesInChapter, sb_structure_none ch (by omega)] at hm
        cases hm

theorem versesInChapter_range_witness :
    (versesInChapter Source.bhagavadGita 19 = none ↔
      (19 < 1 ∨ chapterCount Source.bhagavadGita < 19)) ∧ 0 < 46 :=
  ⟨(versesInChapter_range Source.bhagavadGita 19).1,
    (versesInChapter_range Source.bhagavadGita 1).2 46 (by rfl)⟩

theorem out_of_range_lookup_no_error_cex :
    versesInChapter Source.bhagavadGita 19 = none ∧
    getNextSequentialVerse ⟨Source.bhagavadGita, 19, 5⟩ =
      ⟨Source.srimadBhagavatam, 1, 1⟩ ∧
    getNextVerse (some ⟨Source.bhagavadGita, 19, 5⟩) [] 0 =
      Except.ok ⟨Source.srimadBhagavatam, 1, 1⟩ := by
  refine ⟨rfl, rfl, ?_⟩
  decide

/-- C3 (amended): a history record counts as a recent use of the candidate
iff its stored reference text is *exactly* the candidate's
`chapter.verse` string (plain string equality — no dot-separated parsing,
middle components are not ignored), its source matches, and its timestamp
is within the window. -/
theorem recency_match_is_exact_string_equality (allPosts : List Post)
    (now : Int) (verse : VerseReference) (days : Int) :
    hasVerseBeenPublishedRecently allPosts now verse days = true ↔
    ∃ post ∈ allPosts,
      post.verseReference =
        toString verse.chapter ++ "." ++ toString verse.verse ∧
      post.scriptureSource = verse.source ∧
      now - days ≤ post.createdAt := by
  unfold hasVerseBeenPublishedRecently
  rw [List.any_eq_true]
  constructor
  · rintro ⟨post, hmem, hcond⟩
    simp only [Bool.and_eq_true, decide_eq_true_eq] at hcond
    exact ⟨post, hmem, hcond.1.1, hcond.1.2, hcond.2⟩
  · rintro ⟨post, hmem, h1, h2, h3⟩
    refine ⟨post, hmem, ?_⟩
    simp only [Bool.and_eq_true, decide_eq_true_eq]
    exact ⟨⟨h1, h2⟩, h3⟩

/-- Splitting a character list at the dots (reference implementation of
the dot-splitting the spec describes, written so that it evaluates inside
the kernel). -/
def splitDots : List Char → List (List Char)
  | [] => [[]]
  | c :: rest =>
    let r := splitDots rest
    if c = '.' then [] :: r
    else
      match r with
      | [] => [[c]]
      | g :: gs => (c :: g) :: gs

/-- The numeric value of a non-empty list of decimal digits, `none` on
anything else. -/
def charsToNat (cs : List Char) : Option Nat :=
  match cs with
  | [] => none
  | _ =>
    cs.foldl
      (fun acc c =>
        match acc with
        | some a =>
          if '0' ≤ c ∧ c ≤ '9' then some (a * 10 + (c.toNat - '0'.toNat))
          else none
        | none => none)
      (some 0)

/-- Modelled from the spec: the parser the spec attributes to the Recency
Filter for stored verse-reference text — dot-separated integers, the
first number is the chapter, the last number is the verse, middle
components ignored. -/
def specParseRefText (s : String) : Option (Nat × Nat) :=
  let nums := (splitDots s.toList).filterMap charsToNat
  match nums.head?, nums.getLast? with
  | some ch, some v => some (ch, v)
  | _, _ => none

theorem three_part_text_not_matched_cex :
    specParseRefText "1.2.3" = some (1, 3) ∧
    hasVerseBeenPublishedRecently
      [⟨Source.srimadBhagavatam, "1.2.3", 0⟩] 0
      ⟨Source.srimadBhagavatam, 1, 3⟩ 365 = false := by
  constructor
  · decide
  · decide

/-- C8: the recency window boundary is inclusive on the old side: a
matching record exactly 365 days old still blocks the candidate, while a
matching record exactly 400 days old does not. -/
theorem recency_window_boundary (now : Int) (cand : VerseReference)
    (p : Post)
    (href : p.verseReference =
      toString cand.chapter ++ "." ++ toString cand.verse)
    (hsrc : p.scriptureSource = cand.source) :
    (p.createdAt = now - 365 →
      hasVerseBeenPublishedRecently [p] now cand 365 = true) ∧
    (p.createdAt < now - 365 →
      hasVerseBeenPublishedRecently [p] now cand 365 = false) := by
  constructor
  · intro h
    simp [hasVerseBeenPublishedRecently, href, hsrc, h]
  · intro h
    simp [hasVerseBeenPublishedRecently, href, hsrc]
    omega

theorem recency_window_boundary_witness :
    hasVerseBeenPublishedRecently [⟨Source.bhagavadGita, "2.14", -365⟩] 0
      ⟨Source.bhagavadGita, 2, 14⟩ 365 = true ∧
    hasVerseBeenPublishedRecently [⟨Source.bhagavadGita, "2.14", -400⟩] 0
      ⟨Source.bhagavadGita, 2, 14⟩ 365 = false :=
  ⟨(recency_window_boundary 0 ⟨Source.bhagavadGita, 2, 14⟩ _
      (by rfl) (by rfl)).1 (by rfl),
    (recency_window_boundary 0 ⟨Source.bhagavadGita, 2, 14⟩ _
      (by rfl) (by rfl)).2 (by decide)⟩

/-- A thrown JS error value: its constructor class (`TypeError` or plain
`Error`) and its message. -/
structure JsError where
  isTypeError : Bool
  message : String
deriving DecidableEq, Repr

/-- The row selected by `getLastPublishedVerse` in `src/lib/supabase.ts`
(`scripture_source, verse_reference`). -/
structure LastVerseRow where
  scripture_source : Source
  verse_reference : String
deriving DecidableEq, Repr

/-- Outcome of one awaited Supabase query: the await itself threw (e.g. a
network failure), or it resolved to a `{data, error}` pair with a non-null
`error` (carrying `code` and `message`), or it resolved with possibly-null
`data`. -/
inductive QueryOutcome (α : Type) where
  | threw (e : JsError)
  | errorResult (code : String) (message : String)
  | dataResult (data : Option α)

def startsWithChars : List Char → List Char → Bool
  | _, [] => true
  | [], _ :: _ => false
  | a :: as, b :: bs => decide (a = b) && startsWithChars as bs

def containsChars : List Char → List Char → Bool
  | [], needle => needle.isEmpty
  | a :: rest, needle =>
    startsWithChars (a :: rest) needle || containsChars rest needle

/-- JS `String.prototype.includes`. -/
def stringIncludes (s pat : String) : Bool :=
  containsChars s.toList pat.toList

/-- JS `Number(...)` on one dot-separated component, as used by
`getLastPublishedVerse`; a non-numeric component (`NaN`) is modelled as 0
(no claim depends on malformed rows). -/
def jsNumber (s : String) : Nat :=
  (charsToNat s.toList).getD 0

/-- Function `getLastPublishedVerse` from `src/lib/supabase.ts` (lines
188-227):
`PGRST116` (no rows) yields `null`; any other query error is rethrown
wrapped as a plain `Error`; a connection failure — a `TypeError` whose
message contains "fetch failed" — is caught and converted to `null`; a
row is parsed by dot-splitting (first number the chapter, last number
the verse). -/
def getLastPublishedVerse (q : QueryOutcome LastVerseRow) :
    Except JsError (Option VerseReference) :=
  match q with
  | QueryOutcome.threw e =>
    if e.isTypeError && stringIncludes e.message "fetch failed" then
      Except.ok none
    else
      Except.error e
  | QueryOutcome.errorResult code msg =>
    if code = "PGRST116" then
      Except.ok none
    else
      Except.error ⟨false, "Failed to get last published verse: " ++ msg⟩
  | QueryOutcome.dataResult none => Except.ok none
  | QueryOutcome.dataResult (some row) =>
    let parts := (splitDots row.verse_reference.toList).map
      (fun cs => jsNumber (String.mk cs))
    Except.ok (some ⟨row.scripture_source, parts.headD 0, parts.getLastD 0⟩)

/-- Function `getAllPosts` from `src/lib/supabase.ts`: a thrown error
propagates,
a query error is rethrown wrapped, null data becomes `[]`. -/
def getAllPosts (q : QueryOutcome (List Post)) : Except JsError (List Post) :=
  match q with
  | QueryOutcome.threw e => Except.error e
  | QueryOutcome.errorResult _ msg =>
    Except.error ⟨false, "Failed to get all posts: " ++ msg⟩
  | QueryOutcome.dataResult none => Except.ok []
  | QueryOutcome.dataResult (some posts) => Except.ok posts

/-- Composition of `getNextVerse` with its two awaited collaborator
reads.
`qLast` is the store's response to the `getLastPublishedVerse()` query and
`qPosts` its (fixed, per-run) response to every `getAllPosts()` the
recency loop awaits: an error response surfaces at the first loop-condition
evaluation, a success yields the same list on every iteration, so the
read is resolved once here.  The loop's own `throw new Error(...)` is a
plain error value. -/
def getNextVersePipeline (qLast : QueryOutcome LastVerseRow)
    (qPosts : QueryOutcome (List Post)) (now : Int) :
    Except JsError VerseReference :=
  match getLastPublishedVerse qLast with
  | Except.error e => Except.error e
  | Except.ok none => Except.ok ⟨Source.bhagavadGita, 1, 1⟩
  | Except.ok (some lastVerse) =>
    match getAllPosts qPosts with
    | Except.error e => Except.error e
    | Except.ok allPosts =>
      match (selectLoop allPosts now 1000 (getNextSequentialVerse lastVerse)).1 with
      | Except.ok v => Except.ok v
      | Except.error msg => Except.error ⟨false, msg⟩

/-- C6 (amended): every error the collaborator raises to `getNextVerse`
propagates unchanged (no retry, no rewrapping in the core); but
`getLastPublishedVerse` itself swallows connection failures — a
`TypeError` containing "fetch failed" — returning `null`, so such a
history-read failure becomes the successful bootstrap selection. -/
theorem pipeline_error_propagation (qLast : QueryOutcome LastVerseRow)
    (qPosts : QueryOutcome (List Post)) (now : Int) :
    (∀ e, getLastPublishedVerse qLast = Except.error e →
      getNextVersePipeline qLast qPosts now = Except.error e) ∧
    (∀ lv e, getLastPublishedVerse qLast = Except.ok (some lv) →
      getAllPosts qPosts = Except.error e →
      getNextVersePipeline qLast qPosts now = Except.error e) ∧
    (∀ e, e.isTypeError = true →
      stringIncludes e.message "fetch failed" = true →
      getNextVersePipeline (QueryOutcome.threw e) qPosts now =
        Except.ok ⟨Source.bhagavadGita, 1, 1⟩) := by
  refine ⟨?_, ?_, ?_⟩
  · intro e h
    rw [getNextVersePipeline, h]
  · intro lv e h1 h2
    rw [getNextVersePipeline, h1, h2]
  · intro e h1 h2
    rw [getNextVersePipeline]
    rw [show getLastPublishedVerse (QueryOutcome.threw e) =
      Except.ok none from by rw [getLastPublishedVerse, h1, h2]; rfl]

theorem pipeline_error_propagation_witness :
    getNextVersePipeline (QueryOutcome.errorResult "500" "boom")
      (QueryOutcome.dataResult (some [])) 0 =
      Except.error ⟨false, "Failed to get last published verse: boom"⟩ :=
  (pipeline_error_propagation (QueryOutcome.errorResult "500" "boom")
    (QueryOutcome.dataResult (some [])) 0).1
    ⟨false, "Failed to get last published verse: boom"⟩ (by decide)

theorem fetch_failure_becomes_success_cex :
    getNextVersePipeline
      (QueryOutcome.threw ⟨true, "TypeError: fetch failed"⟩)
      (QueryOutcome.threw ⟨true, "TypeError: fetch failed"⟩) 0 =
      Except.ok ⟨Source.bhagavadGita, 1, 1⟩ := by
  decide
